import Mathlib

/-!
# Verification of the HDR night-mode pipeline

A shallow embedding of `src/main.py`, a single-image HDR night-mode script.
Author-written code (exposure synthesis, clipping/casting, sequencing, the
load/save/error orchestration) is translated directly; the external vision
library primitives the script delegates to (Mertens exposure fusion,
non-local-means denoising, colour-space conversion, CLAHE) are modelled as
abstract deterministic functions gathered in a `CVLib` record, since their
implementations are not part of this repository.

Scalars that are NumPy floats in the source are modelled as rationals `ℚ`
(exact arithmetic); 8-bit channel values are `ℕ` constrained to `≤ 255`.
An image is represented by the flattened list of its per-pixel, per-channel
values: every author-written array operation in the source is elementwise,
so this representation is faithful to the NumPy broadcasting used.
-/

/-- An 8-bit image: the flattened list of its per-pixel, per-channel values. -/
abbrev Image := List ℕ

/-- `np.clip x lo hi`, elementwise on one scalar. -/
def npClip (x lo hi : ℚ) : ℚ := min (max x lo) hi

/-- `np.clip(x, 0, 255).astype(np.uint8)` on one scalar: clamp to `[0, 255]`,
then truncate toward zero (on the clamped, nonnegative value the C-style
truncation performed by the uint8 cast coincides with the floor). -/
def clip_u8 (x : ℚ) : ℕ := (⌊npClip x 0 255⌋).toNat

/-- Every channel value of the image fits in 8 bits. -/
def Valid8 (img : Image) : Prop := ∀ v ∈ img, v ≤ 255

/-- `increase_exposure` (main.py line 60):
`np.clip(image * factor, 0, 255).astype(np.uint8)`. NumPy promotes the
`uint8` array times a float scalar to float, so the product is exact before
clipping. -/
def increase_exposure (image : Image) (factor : ℚ) : Image :=
  image.map (fun (v : ℕ) => clip_u8 ((v : ℚ) * factor))

/-- `generate_exposure_images` (main.py lines 106-110):
`for i in range(1, num_images + 1): images.append(increase_exposure(image, 1 + i * exposure_step))`. -/
def generate_exposure_images (image : Image) (num_images : ℕ)
    (exposure_step : ℚ) : List Image :=
  (List.range' 1 num_images).map
    (fun (i : ℕ) => increase_exposure image (1 + (i : ℚ) * exposure_step))

/-- The external vision-library primitives `main.py` delegates to, modelled as
abstract deterministic functions. `mergeMertens` produces the floating-point
fused composite; `split3`/`merge3` model `cv2.split`/`cv2.merge` on a
three-channel image; `claheApply` takes the clip limit and tile-grid size of
`cv2.createCLAHE` followed by `.apply`. -/
structure CVLib where
  mergeMertens : List Image → List ℚ
  fastNlMeansDenoisingColored : Image → ℚ → ℚ → ℕ → ℕ → Image
  cvtColor_BGR2LAB : Image → Image
  cvtColor_LAB2BGR : Image → Image
  split3 : Image → List ℕ × List ℕ × List ℕ
  merge3 : List ℕ × List ℕ × List ℕ → Image
  claheApply : ℚ → ℕ × ℕ → List ℕ → List ℕ

/-- The filesystem visible to `cv2.imread`: which paths decode to which images. -/
structure FS where
  files : String → Option Image

/-- `load_image` (main.py lines 18-21): `cv2.imread` returning `None` raises
`FileNotFoundError` with the message below; otherwise the image is returned. -/
def load_image (fs : FS) (image_path : String) : Except String Image :=
  match fs.files image_path with
  | none => Except.error ("Error: Could not load image from " ++ image_path)
  | some image => Except.ok image

/-- `save_image` (main.py line 32): `cv2.imwrite(output_path, image)`, recorded
as the pair written to disk. -/
def save_image (image : Image) (output_path : String) : String × Image :=
  (output_path, image)

/-- `noise_reduction` (main.py line 73):
`cv2.fastNlMeansDenoisingColored(image, None, h=10, hColor=10, templateWindowSize=7, searchWindowSize=21)`. -/
def noise_reduction (lib : CVLib) (image : Image) : Image :=
  lib.fastNlMeansDenoisingColored image 10 10 7 21

/-- `contrast_enhancement` (main.py lines 86-91): convert BGR to LAB, split,
apply CLAHE with clip limit 2.0 and tile grid 8x8 to the L channel only,
merge with the untouched a and b channels, convert back to BGR. -/
def contrast_enhancement (lib : CVLib) (image : Image) : Image :=
  let lab := lib.cvtColor_BGR2LAB image
  let c := lib.split3 lab
  let l_clahe := lib.claheApply 2 (8, 8) c.1
  let lab_clahe := lib.merge3 (l_clahe, c.2.1, c.2.2)
  lib.cvtColor_LAB2BGR lab_clahe

/-- The observable outcome of one `hdr_night_mode` run: the returned value,
the files written, and the lines printed. -/
structure RunResult where
  result : Option Image
  writes : List (String × Image)
  prints : List String

/-- `hdr_night_mode` (main.py lines 126-154): load, synthesize exposures, fuse
with Mertens, convert to 8-bit, denoise, enhance contrast, optionally save;
a `FileNotFoundError` from loading is caught, printed, and turned into `None`.
Python's `if output_path:` is falsy for both `None` and the empty string. -/
def hdr_night_mode (lib : CVLib) (fs : FS) (image_path : String)
    (num_images : ℕ) (exposure_step : ℚ)
    (output_path : Option String) : RunResult :=
  match load_image fs image_path with
  | Except.error e => { result := none, writes := [], prints := [e] }
  | Except.ok image =>
    let exposure_images := generate_exposure_images image num_images exposure_step
    let hdr_image := lib.mergeMertens exposure_images
    let hdr_image_8bit := hdr_image.map (fun v => clip_u8 (v * 255))
    let denoised_image := noise_reduction lib hdr_image_8bit
    let final_image := contrast_enhancement lib denoised_image
    let writes :=
      match output_path with
      | some p => if p = "" then [] else [save_image final_image p]
      | none => []
    { result := some final_image, writes := writes, prints := [] }

/-- Tone mapping exactly as the spec words it: multiply by 255, clamp the
result to `[0, 255]`, truncate to integer. Stated independently of the code
path, to be compared against the conversion `hdr_night_mode` performs. -/
def toneMapSpec (v : ℚ) : ℕ := (⌊max (min (v * 255) 255) 0⌋).toNat

/-- The final image the pipeline computes from a successfully loaded image:
fuse the synthesized exposures, convert to 8-bit, denoise, enhance contrast. -/
def pipeline_final (lib : CVLib) (image : Image)
    (num_images : ℕ) (exposure_step : ℚ) : Image :=
  contrast_enhancement lib (noise_reduction lib
    ((lib.mergeMertens (generate_exposure_images image num_images exposure_step)).map
      (fun v => clip_u8 (v * 255))))

/-- The per-pixel relation claimed between consecutive synthesized exposures:
the earlier image is strictly darker wherever it is not already saturated
at 255. -/
def strictlyBrighterExceptSat (prev cur : Image) : Bool :=
  (List.range prev.length).all
    (fun j => prev.getD j 0 == 255 || decide (prev.getD j 0 < cur.getD j 0))

/-! ## Concrete fixtures used to instantiate theorems with hypotheses -/

/-- A small 8-bit test image containing a black, a mid-grey and a saturated
channel value. -/
def testImg : Image := [0, 100, 255]

/-- A concrete instantiation of the abstract library primitives. -/
def testLib : CVLib where
  mergeMertens := fun imgs => (imgs.headD []).map (fun (v : ℕ) => (v : ℚ) / 255)
  fastNlMeansDenoisingColored := fun image _ _ _ _ => image
  cvtColor_BGR2LAB := fun image => image
  cvtColor_LAB2BGR := fun image => image
  split3 := fun image => (image, [], [])
  merge3 := fun c => c.1 ++ c.2.1 ++ c.2.2
  claheApply := fun _ _ l => l

/-- A filesystem holding one decodable image. -/
def testFS : FS := ⟨fun p => if p = "in.jpg" then some testImg else none⟩

/-- A second filesystem agreeing with `testFS` at `"in.jpg"` but holding an
extra file elsewhere. -/
def testFS2 : FS :=
  ⟨fun p => if p = "other.jpg" then some [1] else testFS.files p⟩

/-- The empty filesystem: no path decodes. -/
def emptyFS : FS := ⟨fun _ => none⟩

/-! ## Helper lemmas -/

lemma clip_u8_mono {x y : ℚ} (h : x ≤ y) : clip_u8 x ≤ clip_u8 y := by
  unfold clip_u8 npClip
  exact Int.toNat_le_toNat
    (Int.floor_le_floor (min_le_min (max_le_max h le_rfl) le_rfl))

lemma clip_u8_le_255 (x : ℚ) : clip_u8 x ≤ 255 := by
  unfold clip_u8 npClip
  refine Int.toNat_le.mpr ?_
  calc ⌊min (max x 0) 255⌋ ≤ ⌊(255 : ℚ)⌋ := Int.floor_le_floor (min_le_right _ _)
    _ = ((255 : ℕ) : ℤ) := by norm_num

lemma forall₂_map_le {α : Type} (l : List α) (f g : α → ℕ)
    (h : ∀ a ∈ l, f a ≤ g a) :
    List.Forall₂ (· ≤ ·) (l.map f) (l.map g) := by
  induction l with
  | nil => simp
  | cons a t ih =>
    simp only [List.map_cons]
    exact List.Forall₂.cons (h a (List.mem_cons_self a t))
      (ih (fun b hb => h b (List.mem_cons_of_mem a hb)))

lemma clamp_u8_comm (x : ℚ) : min (max x 0) 255 = max (min x 255) 0 := by
  rcases le_total x 0 with h | h
  · rw [max_eq_right h, min_eq_left (h.trans (by norm_num)),
      max_eq_right h, min_eq_left (by norm_num)]
  · rw [max_eq_left h, max_eq_left (le_min h (by norm_num))]

lemma generate_getD (image : Image) (N : ℕ) (s : ℚ) (i : ℕ)
    (h1 : 1 ≤ i) (h2 : i ≤ N) :
    (generate_exposure_images image N s).getD (i - 1) [] =
      increase_exposure image (1 + (i : ℚ) * s) := by
  unfold generate_exposure_images
  have hlen : i - 1 <
      ((List.range' 1 N).map
        (fun (j : ℕ) => increase_exposure image (1 + (j : ℚ) * s))).length := by
    simp only [List.length_map, List.length_range']
    omega
  rw [List.getD_eq_getElem?_getD, List.getElem?_eq_getElem hlen]
  simp only [List.getElem_map, List.getElem_range'_1, Option.getD_some]
  have hidx : 1 + (i - 1) = i := by omega
  rw [hidx]

lemma generate_length (image : Image) (N : ℕ) (s : ℚ) :
    (generate_exposure_images image N s).length = N := by
  simp [generate_exposure_images]

/-! ## Claim theorems -/

/-- C1: for every 8-bit image, every count `N ≥ 1` and every step `s > 0`,
`generate_exposure_images` produces `N` images whose `i`-th member
(1-indexed) equals the source scaled by `1 + i*s`, clamped to `[0, 255]` and
truncated to integer, per pixel per channel. -/
theorem c1_generate_exposure_images_formula (image : Image) (N : ℕ) (s : ℚ)
    (hval : Valid8 image) (hN : 1 ≤ N) (hs : 0 < s) :
    (generate_exposure_images image N s).length = N ∧
    ∀ i, 1 ≤ i → i ≤ N →
      (generate_exposure_images image N s).getD (i - 1) [] =
        image.map (fun (v : ℕ) =>
          (⌊min (max ((v : ℚ) * (1 + (i : ℚ) * s)) 0) 255⌋).toNat) := by
  refine ⟨generate_length image N s, fun i h1 h2 => ?_⟩
  rw [generate_getD image N s i h1 h2]
  rfl

/-- Witness for C1 at `testImg`, `N = 2`, `s = 1/10`. -/
theorem c1_witness :
    Valid8 testImg ∧ 1 ≤ 2 ∧ (0 : ℚ) < 1/10 ∧
    ((generate_exposure_images testImg 2 (1/10)).length = 2 ∧
     ∀ i, 1 ≤ i → i ≤ 2 →
       (generate_exposure_images testImg 2 (1/10)).getD (i - 1) [] =
         testImg.map (fun (v : ℕ) =>
           (⌊min (max ((v : ℚ) * (1 + (i : ℚ) * (1/10))) 0) 255⌋).toNat)) := by
  have hval : Valid8 testImg := by unfold Valid8; decide
  exact ⟨hval, by decide, by norm_num,
    c1_generate_exposure_images_formula testImg 2 (1/10) hval (by decide)
      (by norm_num)⟩

/-- C2: when the input path does not decode, `hdr_night_mode` catches the load
failure, prints the error message, returns an absent result, and writes no
file, whatever output path was supplied. -/
theorem c2_load_failure_absent_result (lib : CVLib) (fs : FS)
    (image_path : String) (N : ℕ) (s : ℚ) (output_path : Option String)
    (h : fs.files image_path = none) :
    hdr_night_mode lib fs image_path N s output_path =
      { result := none, writes := [],
        prints := ["Error: Could not load image from " ++ image_path] } := by
  unfold hdr_night_mode load_image
  rw [h]

/-- Witness for C2: a missing path with an output path supplied. -/
theorem c2_witness :
    emptyFS.files "missing.jpg" = none ∧
    hdr_night_mode testLib emptyFS "missing.jpg" 30 (1/10) (some "out.jpg") =
      { result := none, writes := [],
        prints := ["Error: Could not load image from " ++ "missing.jpg"] } :=
  ⟨rfl, c2_load_failure_absent_result testLib emptyFS "missing.jpg" 30 (1/10)
    (some "out.jpg") rfl⟩

/-- C3: for every valid 8-bit image and factors `1 ≤ f₁ ≤ f₂`,
`increase_exposure` is pixel-wise non-decreasing from `f₁` to `f₂`, and every
channel value of either result lies in `[0, 255]`. -/
theorem c3_increase_exposure_monotone_bounded (image : Image) (f₁ f₂ : ℚ)
    (hval : Valid8 image) (h1 : 1 ≤ f₁) (h12 : f₁ ≤ f₂) :
    List.Forall₂ (· ≤ ·) (increase_exposure image f₁)
      (increase_exposure image f₂) ∧
    (∀ v ∈ increase_exposure image f₁, v ≤ 255) ∧
    (∀ v ∈ increase_exposure image f₂, v ≤ 255) := by
  unfold increase_exposure
  refine ⟨forall₂_map_le image _ _
      (fun a _ => clip_u8_mono (mul_le_mul_of_nonneg_left h12 (Nat.cast_nonneg a))),
    ?_, ?_⟩
  · intro v hv
    obtain ⟨a, -, rfl⟩ := List.mem_map.mp hv
    exact clip_u8_le_255 _
  · intro v hv
    obtain ⟨a, -, rfl⟩ := List.mem_map.mp hv
    exact clip_u8_le_255 _

/-- Witness for C3 at `testImg`, `f₁ = 1`, `f₂ = 2`. -/
theorem c3_witness :
    Valid8 testImg ∧ (1 : ℚ) ≤ 1 ∧ (1 : ℚ) ≤ 2 ∧
    (List.Forall₂ (· ≤ ·) (increase_exposure testImg 1)
       (increase_exposure testImg 2) ∧
     (∀ v ∈ increase_exposure testImg 1, v ≤ 255) ∧
     (∀ v ∈ increase_exposure testImg 2, v ≤ 255)) := by
  have hval : Valid8 testImg := by unfold Valid8; decide
  exact ⟨hval, le_refl 1, by norm_num,
    c3_increase_exposure_monotone_bounded testImg 1 2 hval (le_refl 1)
      (by norm_num)⟩

/-- C4 counterexample: at the all-black image `[0]` with `N = 2`, `s = 1`,
the second exposure equals the first at a pixel whose value 0 is not
saturated at 255 (`0 * factor` stays 0), so image 2 is not strictly brighter
than image 1 even though image 1 is nowhere saturated. -/
theorem c4_counterexample :
    strictlyBrighterExceptSat ((generate_exposure_images [0] 2 1).getD 0 [])
      ((generate_exposure_images [0] 2 1).getD 1 []) = false := by
  have h : generate_exposure_images [0] 2 1 = [[0], [0]] := by
    norm_num [generate_exposure_images, increase_exposure, clip_u8, npClip,
      List.range']
  rw [h]
  rfl

/-- C4 (amended): `generate_exposure_images` returns exactly `N` images, and
for every `i` from 2 to `N` image `i` is pixel-wise greater than or equal to
image `i-1`; equality can occur not only at saturated pixels but also at
unsaturated ones (zero-valued channels, or when truncation collapses the two
scaled values). -/
theorem c4_generate_monotone (image : Image) (N : ℕ) (s : ℚ)
    (hN : 1 ≤ N) (hs : 0 < s) :
    (generate_exposure_images image N s).length = N ∧
    ∀ i, 2 ≤ i → i ≤ N →
      List.Forall₂ (· ≤ ·)
        ((generate_exposure_images image N s).getD (i - 2) [])
        ((generate_exposure_images image N s).getD (i - 1) []) := by
  refine ⟨generate_length image N s, fun i h2 hiN => ?_⟩
  have e1 : (generate_exposure_images image N s).getD (i - 2) [] =
      increase_exposure image (1 + ((i - 1 : ℕ) : ℚ) * s) := by
    have hidx : i - 2 = (i - 1) - 1 := by omega
    rw [hidx]
    exact generate_getD image N s (i - 1) (by omega) (by omega)
  have e2 : (generate_exposure_images image N s).getD (i - 1) [] =
      increase_exposure image (1 + (i : ℚ) * s) :=
    generate_getD image N s i (by omega) hiN
  rw [e1, e2]
  unfold increase_exposure
  refine forall₂_map_le image _ _ (fun a _ => clip_u8_mono ?_)
  have hle : ((i - 1 : ℕ) : ℚ) ≤ (i : ℚ) := by
    exact_mod_cast Nat.sub_le i 1
  have hfac : 1 + ((i - 1 : ℕ) : ℚ) * s ≤ 1 + (i : ℚ) * s :=
    add_le_add_left (mul_le_mul_of_nonneg_right hle hs.le) 1
  exact mul_le_mul_of_nonneg_left hfac (Nat.cast_nonneg a)

/-- Witness for the amended C4 at `testImg`, `N = 2`, `s = 1`. -/
theorem c4_witness :
    1 ≤ 2 ∧ (0 : ℚ) < 1 ∧
    ((generate_exposure_images testImg 2 1).length = 2 ∧
     ∀ i, 2 ≤ i → i ≤ 2 →
       List.Forall₂ (· ≤ ·)
         ((generate_exposure_images testImg 2 1).getD (i - 2) [])
         ((generate_exposure_images testImg 2 1).getD (i - 1) [])) :=
  ⟨by decide, by norm_num,
   c4_generate_monotone testImg 2 1 (by decide) (by norm_num)⟩

/-- C5: on a successfully loaded image the 8-bit conversion inside
`hdr_night_mode` is exactly the spec's tone mapping: every value of the
floating composite is multiplied by 255, clamped to `[0, 255]`, and
truncated to integer. -/
theorem c5_tone_mapping_formula (lib : CVLib) (fs : FS) (image_path : String)
    (image : Image) (N : ℕ) (s : ℚ) (output_path : Option String)
    (h : fs.files image_path = some image) :
    (hdr_night_mode lib fs image_path N s output_path).result =
      some (contrast_enhancement lib (noise_reduction lib
        ((lib.mergeMertens (generate_exposure_images image N s)).map
          toneMapSpec))) := by
  have hfun : (fun (v : ℚ) => clip_u8 (v * 255)) = toneMapSpec := by
    funext v
    unfold clip_u8 npClip toneMapSpec
    rw [clamp_u8_comm]
  unfold hdr_night_mode load_image
  rw [h, ← hfun]

/-- Witness for C5 at `testFS`, `N = 5`, `s = 1/5`. -/
theorem c5_witness :
    testFS.files "in.jpg" = some testImg ∧
    (hdr_night_mode testLib testFS "in.jpg" 5 (1/5) none).result =
      some (contrast_enhancement testLib (noise_reduction testLib
        ((testLib.mergeMertens (generate_exposure_images testImg 5 (1/5))).map
          toneMapSpec))) :=
  ⟨rfl, c5_tone_mapping_formula testLib testFS "in.jpg" testImg 5 (1/5) none rfl⟩

/-- C6: `contrast_enhancement` rebuilds its output from the adaptive-histogram-
equalized lightness channel and the chrominance channels of the input's LAB
conversion, the latter recombined unchanged. -/
theorem c6_chroma_preserved (lib : CVLib) (image : Image) :
    ∃ l a b,
      lib.split3 (lib.cvtColor_BGR2LAB image) = (l, a, b) ∧
      contrast_enhancement lib image =
        lib.cvtColor_LAB2BGR (lib.merge3 (lib.claheApply 2 (8, 8) l, a, b)) :=
  ⟨(lib.split3 (lib.cvtColor_BGR2LAB image)).1,
   (lib.split3 (lib.cvtColor_BGR2LAB image)).2.1,
   (lib.split3 (lib.cvtColor_BGR2LAB image)).2.2, rfl, rfl⟩

/-- C7: the pipeline is deterministic. With the fixed parameters `N = 30`,
`s = 0.1`, any two runs whose filesystems hold the same data for the input
path produce identical outcomes: same returned image, same writes, same
printed lines. -/
theorem c7_pipeline_deterministic (lib : CVLib) (fs₁ fs₂ : FS)
    (image_path : String) (output_path : Option String)
    (h : fs₁.files image_path = fs₂.files image_path) :
    hdr_night_mode lib fs₁ image_path 30 (1/10) output_path =
      hdr_night_mode lib fs₂ image_path 30 (1/10) output_path := by
  unfold hdr_night_mode load_image
  rw [h]

/-- Witness for C7: two filesystems agreeing at `"in.jpg"`. -/
theorem c7_witness :
    testFS.files "in.jpg" = testFS2.files "in.jpg" ∧
    hdr_night_mode testLib testFS "in.jpg" 30 (1/10) (some "out.jpg") =
      hdr_night_mode testLib testFS2 "in.jpg" 30 (1/10) (some "out.jpg") := by
  have h : testFS.files "in.jpg" = testFS2.files "in.jpg" := rfl
  exact ⟨h, c7_pipeline_deterministic testLib testFS testFS2 "in.jpg"
    (some "out.jpg") h⟩

/-- C8: on a successfully loaded image, `hdr_night_mode` writes the final
image exactly when a non-empty output path was supplied, performs no write
when the output path is absent, and in either case returns the final image. -/
theorem c8_write_iff_output_path (lib : CVLib) (fs : FS) (image_path : String)
    (image : Image) (N : ℕ) (s : ℚ)
    (h : fs.files image_path = some image) :
    (∀ p, p ≠ "" →
      hdr_night_mode lib fs image_path N s (some p) =
        { result := some (pipeline_final lib image N s),
          writes := [(p, pipeline_final lib image N s)], prints := [] }) ∧
    hdr_night_mode lib fs image_path N s none =
      { result := some (pipeline_final lib image N s), writes := [],
        prints := [] } := by
  constructor
  · intro p hp
    unfold hdr_night_mode load_image pipeline_final save_image
    rw [h]
    simp only [if_neg hp]
  · unfold hdr_night_mode load_image pipeline_final
    rw [h]

/-- Witness for C8 at `testFS`, `N = 3`, `s = 1/2`, output path `"out.jpg"`. -/
theorem c8_witness :
    testFS.files "in.jpg" = some testImg ∧
    ((∀ p, p ≠ "" →
       hdr_night_mode testLib testFS "in.jpg" 3 (1/2) (some p) =
         { result := some (pipeline_final testLib testImg 3 (1/2)),
           writes := [(p, pipeline_final testLib testImg 3 (1/2))],
           prints := [] }) ∧
     hdr_night_mode testLib testFS "in.jpg" 3 (1/2) none =
       { result := some (pipeline_final testLib testImg 3 (1/2)),
         writes := [], prints := [] }) :=
  ⟨rfl, c8_write_iff_output_path testLib testFS "in.jpg" testImg 3 (1/2) rfl⟩

/-- C9: with a count of zero, `generate_exposure_images` returns the empty
list: the `N = 0` case is accepted and yields zero exposures rather than
being rejected. -/
theorem c9_zero_images_empty (image : Image) (s : ℚ) :
    generate_exposure_images image 0 s = [] := rfl

/-- C10: `increase_exposure` is total over all rational factors, including
factors below 1 and negative factors: every channel value of the result lies
in `[0, 255]`, because the product is clipped to `[0, 255]` before the cast
to 8-bit, so values never wrap around. -/
theorem c10_increase_exposure_always_bounded (image : Image) (factor : ℚ) :
    ∀ v ∈ increase_exposure image factor, v ≤ 255 := by
  intro v hv
  obtain ⟨a, -, rfl⟩ := List.mem_map.mp hv
  exact clip_u8_le_255 _

/-- Witness for C10 at the negative factor `-3`: the channel value 200 is
clipped to 0, not wrapped. -/
theorem c10_witness :
    0 ∈ increase_exposure [200] (-3) ∧ (0 : ℕ) ≤ 255 := by
  have h : increase_exposure [200] (-3) = [0] := by
    norm_num [increase_exposure, clip_u8, npClip]
  have hmem : 0 ∈ increase_exposure [200] (-3) := by
    rw [h]
    exact List.mem_singleton.mpr rfl
  exact ⟨hmem, c10_increase_exposure_always_bounded [200] (-3) 0 hmem⟩
